import Mathlib

/-!
Verification of the SaoPauloMontrealAQI pipeline (src/p.py): a shallow
embedding of the parsing/categorization core and the orchestration loop,
with theorems settling the specification claims.

JSON values are modelled by an inductive type; Python `float` values that
flow through the parser are modelled by `AqiVal` (a rational or NaN, with
NaN incomparable as in IEEE semantics); fallible operations return
`Option`.
-/

namespace AQI

/-- JSON-like values as returned by `requests.Response.json()`: object keys
are always strings. -/
inductive Json where
  | null
  | bool (b : Bool)
  | num (q : ℚ)
  | str (s : String)
  | arr (elems : List Json)
  | obj (fields : List (String × Json))

/-- A subscript as passed to `safe_get`: the source passes both strings and
the integer `0` (at `src/p.py:72`). -/
inductive PyKey where
  | s (v : String)
  | i (v : Int)
deriving DecidableEq

/-- Python truthiness of a JSON value (`if not station:` at `src/p.py:79`). -/
def jsonFalsy : Json → Bool
  | .null => true
  | .bool b => !b
  | .num q => q == 0
  | .str s => s.isEmpty
  | .arr elems => elems.isEmpty
  | .obj fields => fields.isEmpty

/-- Python truthiness of an `Optional[Any]` (None is falsy). -/
def optFalsy : Option Json → Bool
  | none => true
  | some j => jsonFalsy j

/-- A Python float as used for AQI values: a real number or NaN
(`float("nan")`).  NaN compares false under every ordering comparison. -/
inductive AqiVal where
  | nan
  | num (q : ℚ)
deriving DecidableEq

/-- IEEE-style `<=` against a constant: NaN compares false. -/
def AqiVal.le : AqiVal → ℚ → Bool
  | .nan, _ => false
  | .num q, c => q ≤ c

/-- `aqi_category_us` (src/p.py:21-36): first-match threshold chain. -/
def aqi_category_us (aqi : AqiVal) : String :=
  if aqi.le 50 then "Good"
  else if aqi.le 100 then "Moderate"
  else if aqi.le 150 then "Unhealthy (Sensitive)"
  else if aqi.le 200 then "Unhealthy"
  else if aqi.le 300 then "Very Unhealthy"
  else "Hazardous"

/-- One lookup step of `cur[k]` guarded by `isinstance(cur, dict) and k in cur`:
JSON object keys are strings, so an integer subscript is never found. -/
def keyLookup (fields : List (String × Json)) : PyKey → Option Json
  | .s k => fields.lookup k
  | .i _ => none

/-- `safe_get` (src/p.py:39-45): walk the keys, requiring a dict with the
key present at every step, else `None`. -/
def safe_get : Json → List PyKey → Option Json
  | cur, [] => some cur
  | cur, k :: ks =>
    match cur with
    | .obj fields =>
      match keyLookup fields k with
      | some v => safe_get v ks
      | none => none
    | _ => none

/-- Numeric value of a list of decimal digit characters. -/
def digitsToNat (cs : List Char) : ℕ :=
  cs.foldl (fun a c => a * 10 + (c.toNat - 48)) 0

/-- Strip leading and trailing whitespace. -/
def trimChars (cs : List Char) : List Char :=
  ((cs.dropWhile Char.isWhitespace).reverse.dropWhile Char.isWhitespace).reverse

/-- Signed decimal literal after the optional sign: digits with an optional
decimal point ("12", "3.5", "1.", ".5"); anything else fails. -/
def pyFloatChars (sign : ℚ) (body : List Char) : Option ℚ :=
  let ip := body.takeWhile (· ≠ '.')
  match body.dropWhile (· ≠ '.') with
  | [] =>
      if !ip.isEmpty && ip.all Char.isDigit then some (sign * (digitsToNat ip : ℚ))
      else none
  | _ :: fp =>
      if (!ip.isEmpty || !fp.isEmpty) && ip.all Char.isDigit && fp.all Char.isDigit
      then some (sign * ((digitsToNat ip : ℚ) + (digitsToNat fp : ℚ) / (10 : ℚ) ^ fp.length))
      else none

/-- Python `float(str)` on the decimal literals the WAQI API can produce:
optional surrounding whitespace, optional sign, digits with an optional
decimal point; anything else (e.g. the placeholder "-") raises, modelled
as `none`.  (Exponents and the special strings "inf"/"nan" are outside the
modelled input domain.) -/
def pyFloatOfString (s : String) : Option ℚ :=
  match trimChars s.toList with
  | '-' :: body => pyFloatChars (-1) body
  | '+' :: body => pyFloatChars 1 body
  | body => pyFloatChars 1 body

/-- Python `float(v)` on a JSON value: numbers and booleans coerce, numeric
strings parse, everything else (null, list, dict, non-numeric string)
raises, modelled as `none`. -/
def pyFloat : Json → Option ℚ
  | .num q => some q
  | .bool b => some (if b then 1 else 0)
  | .str s => pyFloatOfString s
  | _ => none

/-- The summary row built by `parse_city_data` / the error branch of `main`.
Optional fields hold the raw JSON value found (or `none` when missing);
`Error` is only set by the error branch. -/
structure SummaryRecord where
  city : String
  aqi : AqiVal
  category : String
  observedTime : Option Json
  stationArea : Option Json
  reportedCity : Option Json
  lat : Option Json
  lon : Option Json
  err : Option String

/-- The pollutant row: six independently coerced sub-indices. -/
structure PollutantRecord where
  city : String
  pm25 : Option ℚ
  pm10 : Option ℚ
  o3 : Option ℚ
  no2 : Option ℚ
  so2 : Option ℚ
  co : Option ℚ
deriving DecidableEq

/-- `float(v)` wrapped in `try/except` with NaN as the fallback
(src/p.py:66-69): `float(None)` raises, hence `nan`. -/
def coerceAqi : Option Json → AqiVal
  | none => .nan
  | some j =>
    match pyFloat j with
    | some q => .num q
    | none => .nan

/-- `iaqi_val` (src/p.py:94-99): `float(safe_get(iaqi, key, "v"))` with
`None` on any failure. -/
def iaqi_val (iaqi : Json) (key : String) : Option ℚ :=
  match safe_get iaqi [.s key, .s "v"] with
  | none => none
  | some v => pyFloat v

/-- `parse_city_data` (src/p.py:58-111). -/
def parse_city_data (label : String) (data : Json) : SummaryRecord × PollutantRecord :=
  let aqi_num := coerceAqi (safe_get data [.s "aqi"])
  let time_s := safe_get data [.s "time", .s "s"]
  let station0 := safe_get data [.s "attributions", .i 0, .s "name"]
  let city_name := safe_get data [.s "city", .s "name"]
  let geo := safe_get data [.s "city", .s "geo"]
  let lat : Option Json :=
    match geo with
    | some (.arr elems) => if 2 ≤ elems.length then elems[0]? else none
    | _ => none
  let lon : Option Json :=
    match geo with
    | some (.arr elems) => if 2 ≤ elems.length then elems[1]? else none
    | _ => none
  let station := if optFalsy station0 then safe_get data [.s "city", .s "name"] else station0
  let summary : SummaryRecord :=
    { city := label
      aqi := aqi_num
      category := if aqi_num = .nan then "Unknown" else aqi_category_us aqi_num
      observedTime := time_s
      stationArea := station
      reportedCity := city_name
      lat := lat
      lon := lon
      err := none }
  let iaqi :=
    match safe_get data [.s "iaqi"] with
    | some j => if jsonFalsy j then Json.obj [] else j
    | none => Json.obj []
  let pollutants : PollutantRecord :=
    { city := label
      pm25 := iaqi_val iaqi "pm25"
      pm10 := iaqi_val iaqi "pm10"
      o3 := iaqi_val iaqi "o3"
      no2 := iaqi_val iaqi "no2"
      so2 := iaqi_val iaqi "so2"
      co := iaqi_val iaqi "co" }
  (summary, pollutants)

/-- Spec-side nested lookup following the spec's words for the path
`attributions[0].name`: unlike `safe_get`, an integer subscript indexes
into a JSON array.  Declared only to compare the source's behaviour
against the spec's description of the Station/Area lookup. -/
def specGet : Json → List PyKey → Option Json
  | cur, [] => some cur
  | cur, k :: ks =>
    match cur, k with
    | .obj fields, .s key =>
      match fields.lookup key with
      | some v => specGet v ks
      | none => none
    | .arr elems, .i n =>
      if 0 ≤ n then
        match elems[n.toNat]? with
        | some v => specGet v ks
        | none => none
      else none
    | _, _ => none

/-- Spec-side Station/Area resolution, following the spec's words: first
try `attributions[0].name`; if absent or empty, fall back to `city.name`. -/
def specStationArea (data : Json) : Option Json :=
  let first := specGet data [.s "attributions", .i 0, .s "name"]
  match first with
  | some (.str s) => if s.isEmpty then specGet data [.s "city", .s "name"] else some (.str s)
  | _ => specGet data [.s "city", .s "name"]

/-! ### Renderer ordering (`plot_aqi_bar`, src/p.py:114-136) -/

/-- Ordering key used by `df.sort_values("AQI", ascending=False)`: numeric
AQI descending, NaN placed after every numeric value (pandas puts NaN last). -/
def aqiDescLe (x y : AqiVal) : Bool :=
  match x, y with
  | .nan, .nan => true
  | .nan, .num _ => false
  | .num _, .nan => true
  | .num a, .num b => b ≤ a

/-- The row order relation of the rendered chart. -/
def plotLe (a b : SummaryRecord) : Prop := aqiDescLe a.aqi b.aqi = true

instance : DecidableRel plotLe :=
fun a b => inferInstanceAs (Decidable (aqiDescLe a.aqi b.aqi = true))

/-- The bar order of `plot_aqi_bar`: rows sorted by AQI descending, NaN
last. -/
def plot_sort (rows : List SummaryRecord) : List SummaryRecord :=
  rows.insertionSort plotLe

/-- Python `round` on a rational: round half to even (banker's rounding),
as `round(float)` does. -/
def pyRound (q : ℚ) : ℤ :=
  let f := ⌊q⌋
  let r := q - f
  if r < 1/2 then f
  else if 1/2 < r then f + 1
  else if f % 2 = 0 then f else f + 1

/-- The annotation written above a bar (src/p.py:127-136): `"n/a"` for a
missing AQI, otherwise the rounded integer AQI and the category string. -/
def barLabel (row : SummaryRecord) : String :=
  match row.aqi with
  | .nan => "n/a"
  | .num q => toString (pyRound q) ++ " (" ++ row.category ++ ")"

/-! ### Orchestration (`main`, src/p.py:153-206) -/

/-- `CityQuery` (src/p.py:15-18). -/
structure CityQuery where
  label : String
  waqi_feed_path : String

/-- The fixed city list (src/p.py:162-166). -/
def cities : List CityQuery :=
  [⟨"São Paulo", "sao%20paulo"⟩, ⟨"Montreal", "montreal"⟩, ⟨"Seattle", "seattle"⟩]

/-- One iteration of the per-city loop (src/p.py:171-190): the fetch
collaborator either returns the `data` payload or raises (modelled as
`Except.error` with the exception's description); any failure is converted
into the degraded record pair and the loop moves on. -/
def processCity (fetch : String → Except String Json) (c : CityQuery) :
    SummaryRecord × PollutantRecord :=
  match fetch c.waqi_feed_path with
  | .ok data => parse_city_data c.label data
  | .error e =>
    ({ city := c.label, aqi := .nan, category := "Unknown", observedTime := none,
       stationArea := none, reportedCity := none, lat := none, lon := none,
       err := some e },
     { city := c.label, pm25 := none, pm10 := none, o3 := none, no2 := none,
       so2 := none, co := none })

/-- The accumulation loop of `main`: one summary row and one pollutant row
per city, in input order. -/
def runCities (fetch : String → Except String Json) (cs : List CityQuery) :
    List SummaryRecord × List PollutantRecord :=
  (cs.map fun c => (processCity fetch c).1, cs.map fun c => (processCity fetch c).2)

/-- Python `if not token:`: true for an unset variable and for the empty
string (src/p.py:154-155). -/
def tokenMissing : Option String → Bool
  | none => true
  | some t => t.isEmpty

/-- Observable outcome of one run of `main`: the exit code, the feed paths
for which a network fetch was attempted, the optional startup diagnostic,
and the two record sequences. -/
structure MainResult where
  exitCode : Nat
  fetched : List String
  diagnostic : Option String
  summaries : List SummaryRecord
  pollutants : List PollutantRecord

/-- `main` (src/p.py:153-206), with the environment variable and the fetch
collaborator as parameters. -/
def main (token : Option String) (fetch : String → Except String Json) : MainResult :=
  if tokenMissing token then
    { exitCode := 2
      fetched := []
      diagnostic := some "ERROR: WAQI_TOKEN environment variable not set."
      summaries := []
      pollutants := [] }
  else
    let rs := runCities fetch cities
    { exitCode := 0
      fetched := cities.map (·.waqi_feed_path)
      diagnostic := none
      summaries := rs.1
      pollutants := rs.2 }

/-- Spec-side description of `safe_get`'s success: the key sequence leads
through nested mappings to the value. -/
inductive FollowPath : Json → List PyKey → Json → Prop
  | nil (d : Json) : FollowPath d [] d
  | cons (fields : List (String × Json)) (k : PyKey) (v out : Json) (ks : List PyKey) :
      keyLookup fields k = some v → FollowPath v ks out →
      FollowPath (.obj fields) (k :: ks) out

/-- Raw response exercising the Station/Area lookup: a non-empty
`attributions` list whose first entry has a non-empty name, and a
different `city.name`. -/
def attrData : Json :=
  .obj [("attributions", .arr [.obj [("name", .str "Central Station")]]),
        ("city", .obj [("name", .str "Springfield")])]

/-- Fetch stub whose second city fails with a network fault. -/
def fetchBoom : String → Except String Json :=
  fun p => if p = "montreal" then .error "boom" else .ok (Json.obj [("aqi", Json.num 42)])

/-! ### Helper lemmas -/

theorem parse_fst_city (label : String) (data : Json) :
    (parse_city_data label data).1.city = label := rfl

theorem parse_snd_city (label : String) (data : Json) :
    (parse_city_data label data).2.city = label := rfl

theorem parse_aqi_eq (label : String) (data : Json) :
    (parse_city_data label data).1.aqi = coerceAqi (safe_get data [.s "aqi"]) := rfl

theorem parse_category_eq (label : String) (data : Json) :
    (parse_city_data label data).1.category =
      (if coerceAqi (safe_get data [.s "aqi"]) = .nan then "Unknown"
       else aqi_category_us (coerceAqi (safe_get data [.s "aqi"]))) := rfl

theorem parse_observedTime_eq (label : String) (data : Json) :
    (parse_city_data label data).1.observedTime = safe_get data [.s "time", .s "s"] := rfl

theorem parse_reportedCity_eq (label : String) (data : Json) :
    (parse_city_data label data).1.reportedCity = safe_get data [.s "city", .s "name"] := rfl

/-- A lookup step with an integer subscript always fails: `safe_get` only
traverses dicts, whose keys are strings. -/
theorem safe_get_int_key (v : Json) (n : Int) (ks : List PyKey) :
    safe_get v (.i n :: ks) = none := by
  cases v <;> rfl

/-- The `attributions[0].name` path through `safe_get` is dead: it returns
`None` on every input. -/
theorem safe_get_attributions_dead (d : Json) :
    safe_get d [.s "attributions", .i 0, .s "name"] = none := by
  cases d <;> try rfl
  case obj fields =>
    show (match keyLookup fields (.s "attributions") with
          | some v => safe_get v [.i 0, .s "name"]
          | none => none) = none
    cases keyLookup fields (.s "attributions") with
    | none => rfl
    | some v => exact safe_get_int_key v 0 [.s "name"]

theorem parse_stationArea_eq (label : String) (data : Json) :
    (parse_city_data label data).1.stationArea = safe_get data [.s "city", .s "name"] := by
  show (if optFalsy (safe_get data [.s "attributions", .i 0, .s "name"])
        then safe_get data [.s "city", .s "name"]
        else safe_get data [.s "attributions", .i 0, .s "name"]) =
       safe_get data [.s "city", .s "name"]
  rw [safe_get_attributions_dead]
  rfl

theorem aqi_category_us_mem (v : AqiVal) :
    aqi_category_us v ∈
      ["Good", "Moderate", "Unhealthy (Sensitive)", "Unhealthy", "Very Unhealthy", "Hazardous"] := by
  unfold aqi_category_us
  split_ifs <;> simp

theorem aqi_category_us_ne_unknown (v : AqiVal) : aqi_category_us v ≠ "Unknown" := by
  unfold aqi_category_us
  split_ifs <;> decide

theorem coerceAqi_nan_iff (o : Option Json) :
    coerceAqi o = .nan ↔ o = none ∨ ∃ j, o = some j ∧ pyFloat j = none := by
  cases o with
  | none => simp [coerceAqi]
  | some j =>
    cases h : pyFloat j with
    | none => simp [coerceAqi, h]
    | some q => simp [coerceAqi, h]

theorem coerceAqi_num_iff (o : Option Json) (q : ℚ) :
    coerceAqi o = .num q ↔ ∃ j, o = some j ∧ pyFloat j = some q := by
  cases o with
  | none => simp [coerceAqi]
  | some j =>
    cases h : pyFloat j with
    | none => simp [coerceAqi, h]
    | some r => simp [coerceAqi, h]

instance : IsTotal SummaryRecord plotLe := by
  constructor
  intro a b
  simp only [plotLe]
  cases a.aqi with
  | nan => cases b.aqi with
    | nan => left; rfl
    | num qb => right; rfl
  | num qa => cases b.aqi with
    | nan => left; rfl
    | num qb =>
      rcases le_total qb qa with h | h
      · left; simpa [aqiDescLe] using h
      · right; simpa [aqiDescLe] using h

instance : IsTrans SummaryRecord plotLe := by
  constructor
  intro a b c hab hbc
  simp only [plotLe] at *
  cases ha : a.aqi with
  | nan => cases hb : b.aqi with
    | nan => cases hc : c.aqi with
      | nan => rfl
      | num qc => rw [hb, hc] at hbc; exact absurd hbc (by simp [aqiDescLe])
    | num qb => rw [ha, hb] at hab; exact absurd hab (by simp [aqiDescLe])
  | num qa => cases hc : c.aqi with
    | nan => rfl
    | num qc => cases hb : b.aqi with
      | nan => rw [hb, hc] at hbc; exact absurd hbc (by simp [aqiDescLe])
      | num qb =>
        rw [ha, hb] at hab
        rw [hb, hc] at hbc
        simp only [aqiDescLe, decide_eq_true_eq] at hab hbc
        simp only [aqiDescLe, decide_eq_true_eq]
        exact le_trans hbc hab

theorem processCity_cityLabel (fetch : String → Except String Json) (c : CityQuery) :
    (processCity fetch c).1.city = c.label ∧ (processCity fetch c).2.city = c.label := by
  unfold processCity
  cases fetch c.waqi_feed_path with
  | ok data => exact ⟨rfl, rfl⟩
  | error e => exact ⟨rfl, rfl⟩

theorem processCity_error (fetch : String → Except String Json) (c : CityQuery) (e : String)
    (hf : fetch c.waqi_feed_path = .error e) :
    processCity fetch c =
      ({ city := c.label, aqi := .nan, category := "Unknown", observedTime := none,
         stationArea := none, reportedCity := none, lat := none, lon := none,
         err := some e },
       { city := c.label, pm25 := none, pm10 := none, o3 := none, no2 := none,
         so2 := none, co := none }) := by
  unfold processCity
  rw [hf]

/-! ### Claim theorems -/

/-- C2: for every real number `n`, the Categorizer returns exactly one of
the six fixed labels by first-match on non-strict thresholds in ascending
order (≤50 Good, ≤100 Moderate, ≤150 Unhealthy (Sensitive), ≤200
Unhealthy, ≤300 Very Unhealthy, >300 Hazardous); in particular at 50,
50.01, 300 and 300.01. -/
theorem categorizer_thresholds (q : ℚ) :
    aqi_category_us (.num q) =
      (if q ≤ 50 then "Good"
       else if q ≤ 100 then "Moderate"
       else if q ≤ 150 then "Unhealthy (Sensitive)"
       else if q ≤ 200 then "Unhealthy"
       else if q ≤ 300 then "Very Unhealthy"
       else "Hazardous") ∧
    aqi_category_us (.num q) ∈
      ["Good", "Moderate", "Unhealthy (Sensitive)", "Unhealthy", "Very Unhealthy", "Hazardous"] ∧
    aqi_category_us (.num 50) = "Good" ∧
    aqi_category_us (.num (5001 / 100)) = "Moderate" ∧
    aqi_category_us (.num 300) = "Very Unhealthy" ∧
    aqi_category_us (.num (30001 / 100)) = "Hazardous" := by
  refine ⟨?_, aqi_category_us_mem _, ?_, ?_, ?_, ?_⟩
  · simp only [aqi_category_us, AqiVal.le, decide_eq_true_eq]
  · norm_num [aqi_category_us, AqiVal.le]
  · norm_num [aqi_category_us, AqiVal.le]
  · norm_num [aqi_category_us, AqiVal.le]
  · norm_num [aqi_category_us, AqiVal.le]

/-- C9: applied directly to NaN, every threshold comparison is false and
the Categorizer returns "Hazardous" — not "Unknown" and not an error; the
"Unknown" substitution happens only in the Parser's guard. -/
theorem categorizer_nan :
    aqi_category_us .nan = "Hazardous" ∧
    aqi_category_us .nan ≠ "Unknown" ∧
    (∀ (q : ℚ), AqiVal.le .nan q = false) ∧
    (∀ (label : String) (data : Json), (parse_city_data label data).1.aqi = .nan →
        (parse_city_data label data).1.category = "Unknown") := by
  refine ⟨rfl, by decide, fun q => rfl, fun label data h => ?_⟩
  rw [parse_aqi_eq] at h
  rw [parse_category_eq, if_pos h]

/-- Witness for C9 at a response whose `aqi` field is the placeholder "-". -/
theorem categorizer_nan_witness :
    (parse_city_data "X" (.obj [("aqi", .str "-")])).1.category = "Unknown" :=
  categorizer_nan.2.2.2 "X" (.obj [("aqi", .str "-")]) rfl

/-- C3: the Category of a parsed SummaryRecord is "Unknown" iff the AQI is
missing or fails numeric coercion; whenever the AQI coerces to a number,
Category is the threshold mapping of that number (and hence never
"Unknown"). -/
theorem category_unknown_iff (label : String) (data : Json) :
    ((parse_city_data label data).1.category = "Unknown" ↔
       (parse_city_data label data).1.aqi = .nan) ∧
    ((parse_city_data label data).1.aqi = .nan ↔
       safe_get data [.s "aqi"] = none ∨
         ∃ j, safe_get data [.s "aqi"] = some j ∧ pyFloat j = none) ∧
    (∀ (q : ℚ), (parse_city_data label data).1.aqi = .num q →
       (parse_city_data label data).1.category = aqi_category_us (.num q) ∧
       (parse_city_data label data).1.category ≠ "Unknown") := by
  refine ⟨?_, ?_, ?_⟩
  · rw [parse_category_eq, parse_aqi_eq]
    constructor
    · intro h
      by_contra hne
      rw [if_neg hne] at h
      exact aqi_category_us_ne_unknown _ h
    · intro h
      rw [if_pos h]
  · rw [parse_aqi_eq]
    exact coerceAqi_nan_iff _
  · intro q hq
    rw [parse_aqi_eq] at hq
    rw [parse_category_eq, if_neg (by rw [hq]; exact fun h => AqiVal.noConfusion h), hq]
    exact ⟨rfl, aqi_category_us_ne_unknown _⟩

/-- Witness for C3: a numeric AQI of 42 maps through the Categorizer, and
its Category is not "Unknown". -/
theorem category_unknown_iff_witness :
    (parse_city_data "X" (.obj [("aqi", .num 42)])).1.category = aqi_category_us (.num 42) ∧
    (parse_city_data "X" (.obj [("aqi", .num 42)])).1.category ≠ "Unknown" :=
  (category_unknown_iff "X" (.obj [("aqi", .num 42)])).2.2 42 rfl

/-- C1: the `attributions[0].name` branch of the Station/Area resolution
is dead code — `safe_get` refuses any traversal step whose current value
is not a dict, so the integer subscript `0` never succeeds and the
fallback to `city.name` is taken on every input.  On `attrData`, whose
nested `attributions[0].name` is the non-empty string "Central Station"
(as the spec-side `specGet`/`specStationArea` confirm), the parser still
resolves Station/Area to `city.name` = "Springfield", contradicting the
claimed first-try/fallback behaviour. -/
theorem station_fallback_always_taken :
    (∀ d : Json, safe_get d [.s "attributions", .i 0, .s "name"] = none) ∧
    (∀ (label : String) (d : Json),
        (parse_city_data label d).1.stationArea = safe_get d [.s "city", .s "name"]) ∧
    specGet attrData [.s "attributions", .i 0, .s "name"] = some (.str "Central Station") ∧
    specStationArea attrData = some (.str "Central Station") ∧
    (parse_city_data "São Paulo" attrData).1.stationArea = some (.str "Springfield") :=
  ⟨safe_get_attributions_dead, parse_stationArea_eq, rfl, rfl, rfl⟩

/-- C5: `safe_get` returns exactly the value reached by traversing the
keys through nested mappings, and `None` precisely when no such traversal
exists (an intermediate key absent, or an intermediate value not a
mapping); it never raises, and each field-extraction failure in the
parser degrades to a missing value in the output record. -/
theorem safe_get_total_and_degrading :
    (∀ (d : Json) (ks : List PyKey) (v : Json), safe_get d ks = some v ↔ FollowPath d ks v) ∧
    (∀ (d : Json) (ks : List PyKey), safe_get d ks = none ↔ ∀ v, ¬ FollowPath d ks v) ∧
    (∀ (label : String) (data : Json), safe_get data [.s "time", .s "s"] = none →
        (parse_city_data label data).1.observedTime = none) ∧
    (∀ (label : String) (data : Json), safe_get data [.s "city", .s "name"] = none →
        (parse_city_data label data).1.reportedCity = none ∧
        (parse_city_data label data).1.stationArea = none) ∧
    (∀ (label : String) (data : Json) (j : Json),
        safe_get data [.s "aqi"] = some j → pyFloat j = none →
        (parse_city_data label data).1.aqi = .nan) ∧
    (∀ (label : String) (data : Json), safe_get data [.s "iaqi"] = none →
        (parse_city_data label data).2 =
          { city := label, pm25 := none, pm10 := none, o3 := none, no2 := none,
            so2 := none, co := none }) := by
  have hsome : ∀ (ks : List PyKey) (d v : Json), safe_get d ks = some v ↔ FollowPath d ks v := by
    intro ks
    induction ks with
    | nil =>
      intro d v
      constructor
      · intro h
        cases h
        exact .nil d
      · intro h
        cases h
        rfl
    | cons k ks ih =>
      intro d v
      cases d with
      | obj fields =>
        constructor
        · intro h
          revert h
          show (match keyLookup fields k with
                | some w => safe_get w ks
                | none => none) = some v → _
          cases hk : keyLookup fields k with
          | none => intro h; exact absurd h (by simp)
          | some w =>
            intro h
            exact .cons fields k w v ks hk ((ih w v).mp h)
        · intro h
          cases h with
          | cons _ _ w _ _ hk hf =>
            show (match keyLookup fields k with
                  | some w => safe_get w ks
                  | none => none) = some v
            rw [hk]
            exact (ih w v).mpr hf
      | null =>
        exact ⟨fun h => absurd h (by simp [safe_get]), fun h => by cases h⟩
      | bool b =>
        exact ⟨fun h => absurd h (by simp [safe_get]), fun h => by cases h⟩
      | num q =>
        exact ⟨fun h => absurd h (by simp [safe_get]), fun h => by cases h⟩
      | str s =>
        exact ⟨fun h => absurd h (by simp [safe_get]), fun h => by cases h⟩
      | arr elems =>
        exact ⟨fun h => absurd h (by simp [safe_get]), fun h => by cases h⟩
  refine ⟨fun d ks v => hsome ks d v, ?_, ?_, ?_, ?_, ?_⟩
  · intro d ks
    constructor
    · intro h v hf
      rw [← hsome ks d v] at hf
      rw [h] at hf
      exact Option.noConfusion hf
    · intro h
      cases hg : safe_get d ks with
      | none => rfl
      | some v => exact absurd ((hsome ks d v).mp hg) (h v)
  · intro label data h
    rw [parse_observedTime_eq, h]
  · intro label data h
    rw [parse_reportedCity_eq, parse_stationArea_eq, h]
    exact ⟨rfl, rfl⟩
  · intro label data j hj hf
    rw [parse_aqi_eq, hj]
    show coerceAqi (some j) = .nan
    rw [coerceAqi_nan_iff]
    exact Or.inr ⟨j, rfl, hf⟩
  · intro label data h
    simp only [parse_city_data, h]
    rfl

/-- Witness for C5: on a response whose `time` field is a string (not a
mapping), the ObservedTime extraction degrades to a missing value. -/
theorem safe_get_total_and_degrading_witness :
    (parse_city_data "X" (.obj [("time", .str "noon")])).1.observedTime = none :=
  safe_get_total_and_degrading.2.2.1 "X" (.obj [("time", .str "noon")]) rfl

/-- C6: Lat and Lon are either both populated — from the first and second
elements of the two-or-more-element list at `city.geo` — or both missing;
never partially populated. -/
theorem latlon_never_partial (label : String) (data : Json) :
    ((parse_city_data label data).1.lat = none ∧ (parse_city_data label data).1.lon = none ∧
       ¬ ∃ elems : List Json, safe_get data [.s "city", .s "geo"] = some (.arr elems) ∧
           2 ≤ elems.length) ∨
    (∃ (elems : List Json) (a b : Json),
       safe_get data [.s "city", .s "geo"] = some (.arr elems) ∧ 2 ≤ elems.length ∧
       elems[0]? = some a ∧ elems[1]? = some b ∧
       (parse_city_data label data).1.lat = some a ∧
       (parse_city_data label data).1.lon = some b) := by
  have hlat : (parse_city_data label data).1.lat =
      (match safe_get data [.s "city", .s "geo"] with
       | some (.arr elems) => if 2 ≤ elems.length then elems[0]? else none
       | _ => none) := rfl
  have hlon : (parse_city_data label data).1.lon =
      (match safe_get data [.s "city", .s "geo"] with
       | some (.arr elems) => if 2 ≤ elems.length then elems[1]? else none
       | _ => none) := rfl
  cases hg : safe_get data [.s "city", .s "geo"] with
  | none =>
    left
    rw [hlat, hlon, hg]
    exact ⟨rfl, rfl, by simp⟩
  | some g =>
    cases g with
    | arr elems =>
      by_cases hlen : 2 ≤ elems.length
      · right
        have h0 : elems[0]? = some elems[0] := List.getElem?_eq_getElem (by omega)
        have h1 : elems[1]? = some elems[1] := List.getElem?_eq_getElem (by omega)
        refine ⟨elems, elems[0], elems[1], rfl, hlen, h0, h1, ?_, ?_⟩
        · rw [hlat, hg]
          show (if 2 ≤ elems.length then elems[0]? else none) = some elems[0]
          rw [if_pos hlen, h0]
        · rw [hlon, hg]
          show (if 2 ≤ elems.length then elems[1]? else none) = some elems[1]
          rw [if_pos hlen, h1]
      · left
        rw [hlat, hlon, hg]
        refine ⟨?_, ?_, ?_⟩
        · show (if 2 ≤ elems.length then elems[0]? else none) = none
          rw [if_neg hlen]
        · show (if 2 ≤ elems.length then elems[1]? else none) = none
          rw [if_neg hlen]
        · rintro ⟨elems2, he, hl⟩
          cases he
          exact hlen hl
    | null => left; rw [hlat, hlon, hg]; exact ⟨rfl, rfl, by simp⟩
    | bool b => left; rw [hlat, hlon, hg]; exact ⟨rfl, rfl, by simp⟩
    | num q => left; rw [hlat, hlon, hg]; exact ⟨rfl, rfl, by simp⟩
    | str s => left; rw [hlat, hlon, hg]; exact ⟨rfl, rfl, by simp⟩
    | obj fields => left; rw [hlat, hlon, hg]; exact ⟨rfl, rfl, by simp⟩

/-- C4: every CityQuery contributes exactly one SummaryRecord and one
PollutantRecord, in input order, whether its fetch/parse succeeds or
fails; on a per-city failure the summary row has AQI missing, Category
"Unknown", all optional fields missing and the failure's description in
Error, the pollutant row has only the City field populated, and the loop
still produces a row for every remaining city. -/
theorem run_one_row_per_city (fetch : String → Except String Json) (cs : List CityQuery) :
    (runCities fetch cs).1.length = cs.length ∧
    (runCities fetch cs).2.length = cs.length ∧
    (runCities fetch cities).1.length = 3 ∧
    (∀ (i : ℕ) (c : CityQuery), cs[i]? = some c →
       ∃ s p, (runCities fetch cs).1[i]? = some s ∧ (runCities fetch cs).2[i]? = some p ∧
         s.city = c.label ∧ p.city = c.label) ∧
    (∀ (i : ℕ) (c : CityQuery) (e : String),
       cs[i]? = some c → fetch c.waqi_feed_path = .error e →
       (runCities fetch cs).1[i]? =
         some { city := c.label, aqi := .nan, category := "Unknown", observedTime := none,
                stationArea := none, reportedCity := none, lat := none, lon := none,
                err := some e } ∧
       (runCities fetch cs).2[i]? =
         some { city := c.label, pm25 := none, pm10 := none, o3 := none, no2 := none,
                so2 := none, co := none }) := by
  refine ⟨by simp [runCities], by simp [runCities], by simp [runCities, cities], ?_, ?_⟩
  · intro i c hc
    refine ⟨(processCity fetch c).1, (processCity fetch c).2, ?_, ?_, ?_, ?_⟩
    · show (List.map (fun c => (processCity fetch c).1) cs)[i]? = _
      rw [List.getElem?_map _ _ _, hc]
      rfl
    · show (List.map (fun c => (processCity fetch c).2) cs)[i]? = _
      rw [List.getElem?_map _ _ _, hc]
      rfl
    · exact (processCity_cityLabel fetch c).1
    · exact (processCity_cityLabel fetch c).2
  · intro i c e hc hf
    constructor
    · show (List.map (fun c => (processCity fetch c).1) cs)[i]? = _
      rw [List.getElem?_map _ _ _, hc]
      show some (processCity fetch c).1 = _
      rw [processCity_error fetch c e hf]
    · show (List.map (fun c => (processCity fetch c).2) cs)[i]? = _
      rw [List.getElem?_map _ _ _, hc]
      show some (processCity fetch c).2 = _
      rw [processCity_error fetch c e hf]

/-- Witness for C4: with the second fetch failing, the run still yields
three summary rows, the second being the degraded error row and the third
a parsed row for Seattle. -/
theorem run_one_row_per_city_witness :
    (runCities fetchBoom cities).1[1]? =
      some { city := "Montreal", aqi := .nan, category := "Unknown", observedTime := none,
             stationArea := none, reportedCity := none, lat := none, lon := none,
             err := some "boom" } ∧
    (runCities fetchBoom cities).2[1]? =
      some { city := "Montreal", pm25 := none, pm10 := none, o3 := none, no2 := none,
             so2 := none, co := none } ∧
    (runCities fetchBoom cities).1.length = 3 ∧
    (∃ s p, (runCities fetchBoom cities).1[2]? = some s ∧
       (runCities fetchBoom cities).2[2]? = some p ∧
       s.city = "Seattle" ∧ p.city = "Seattle") := by
  refine ⟨?_, ?_, (run_one_row_per_city fetchBoom cities).2.2.1, ?_⟩
  · exact ((run_one_row_per_city fetchBoom cities).2.2.2.2 1 ⟨"Montreal", "montreal"⟩ "boom"
      rfl rfl).1
  · exact ((run_one_row_per_city fetchBoom cities).2.2.2.2 1 ⟨"Montreal", "montreal"⟩ "boom"
      rfl rfl).2
  · exact (run_one_row_per_city fetchBoom cities).2.2.2.1 2 ⟨"Seattle", "seattle"⟩ rfl

/-- C7: the renderer orders the bars by AQI descending with missing-AQI
records after all numeric ones, labels a bar "n/a" when AQI is missing
and with the rounded integer AQI plus category otherwise; on the example
[A:40, B:missing, C:120] the order is C, A, B. -/
theorem renderer_sort_spec (rows : List SummaryRecord) :
    List.Perm (plot_sort rows) rows ∧
    (∀ (i j : Fin (plot_sort rows).length), i < j →
        aqiDescLe ((plot_sort rows).get i).aqi ((plot_sort rows).get j).aqi = true) ∧
    (∀ (i j : Fin (plot_sort rows).length), i < j →
        ((plot_sort rows).get i).aqi = .nan → ((plot_sort rows).get j).aqi = .nan) ∧
    (∀ (i j : Fin (plot_sort rows).length) (qi qj : ℚ), i < j →
        ((plot_sort rows).get i).aqi = .num qi → ((plot_sort rows).get j).aqi = .num qj →
        qj ≤ qi) ∧
    (∀ row : SummaryRecord, row.aqi = .nan → barLabel row = "n/a") ∧
    (∀ (row : SummaryRecord) (q : ℚ), row.aqi = .num q →
        barLabel row = toString (pyRound q) ++ " (" ++ row.category ++ ")") ∧
    plot_sort
        [{ city := "A", aqi := .num 40, category := "Good", observedTime := none,
           stationArea := none, reportedCity := none, lat := none, lon := none, err := none },
         { city := "B", aqi := .nan, category := "Unknown", observedTime := none,
           stationArea := none, reportedCity := none, lat := none, lon := none, err := none },
         { city := "C", aqi := .num 120, category := "Unhealthy (Sensitive)",
           observedTime := none, stationArea := none, reportedCity := none, lat := none,
           lon := none, err := none }] =
      [{ city := "C", aqi := .num 120, category := "Unhealthy (Sensitive)",
         observedTime := none, stationArea := none, reportedCity := none, lat := none,
         lon := none, err := none },
       { city := "A", aqi := .num 40, category := "Good", observedTime := none,
         stationArea := none, reportedCity := none, lat := none, lon := none, err := none },
       { city := "B", aqi := .nan, category := "Unknown", observedTime := none,
         stationArea := none, reportedCity := none, lat := none, lon := none, err := none }] := by
  have hs : List.Sorted plotLe (plot_sort rows) := List.sorted_insertionSort plotLe rows
  refine ⟨List.perm_insertionSort plotLe rows, fun i j hij => hs.rel_get_of_lt hij,
    ?_, ?_, ?_, ?_, rfl⟩
  · intro i j hij hi
    have h := hs.rel_get_of_lt hij
    simp only [plotLe, hi] at h
    cases hj : ((plot_sort rows).get j).aqi with
    | nan => rfl
    | num qj => rw [hj] at h; exact absurd h (by simp [aqiDescLe])
  · intro i j qi qj hij hi hj
    have h := hs.rel_get_of_lt hij
    simp only [plotLe, hi, hj, aqiDescLe, decide_eq_true_eq] at h
    exact h
  · intro row h
    simp [barLabel, h]
  · intro row q h
    simp [barLabel, h]

/-- Witness for C7: applying the ordering guarantee to the first two bars
of the sorted example, and the label rule to the B bar. -/
theorem renderer_sort_spec_witness :
    aqiDescLe
      ((plot_sort
          [{ city := "A", aqi := .num 40, category := "Good", observedTime := none,
             stationArea := none, reportedCity := none, lat := none, lon := none, err := none },
           { city := "B", aqi := .nan, category := "Unknown", observedTime := none,
             stationArea := none, reportedCity := none, lat := none, lon := none, err := none }]).get
        ⟨0, by decide⟩).aqi
      ((plot_sort
          [{ city := "A", aqi := .num 40, category := "Good", observedTime := none,
             stationArea := none, reportedCity := none, lat := none, lon := none, err := none },
           { city := "B", aqi := .nan, category := "Unknown", observedTime := none,
             stationArea := none, reportedCity := none, lat := none, lon := none, err := none }]).get
        ⟨1, by decide⟩).aqi = true ∧
    barLabel { city := "B", aqi := .nan, category := "Unknown", observedTime := none,
               stationArea := none, reportedCity := none, lat := none, lon := none,
               err := none } = "n/a" := by
  constructor
  · exact (renderer_sort_spec
      [{ city := "A", aqi := .num 40, category := "Good", observedTime := none,
         stationArea := none, reportedCity := none, lat := none, lon := none, err := none },
       { city := "B", aqi := .nan, category := "Unknown", observedTime := none,
         stationArea := none, reportedCity := none, lat := none, lon := none, err := none }]).2.1
      ⟨0, by decide⟩ ⟨1, by decide⟩ (by decide)
  · exact (renderer_sort_spec []).2.2.2.2.1
      { city := "B", aqi := .nan, category := "Unknown", observedTime := none,
        stationArea := none, reportedCity := none, lat := none, lon := none, err := none } rfl

/-- Counterexample to C8 as stated: with the token variable set to the
empty string — present, not absent — the program still exits with code 2
and performs no fetch, so "exit code 2 exactly when the variable is
absent; otherwise exit 0" fails. -/
theorem exit_codes_cex :
    (some "" : Option String) ≠ none ∧
    (main (some "") fun _ => .ok Json.null).exitCode = 2 ∧
    (main (some "") fun _ => .ok Json.null).exitCode ≠ 0 :=
  ⟨by decide, rfl, by decide⟩

/-- C8 (amended): the program exits with code 2, before any network
activity and with a diagnostic, exactly when the token variable is absent
or set to the empty string; otherwise it exits 0 on normal completion,
even when every city's fetch failed. -/
theorem exit_codes_spec (token : Option String) (fetch : String → Except String Json) :
    ((main token fetch).exitCode = 2 ↔ token = none ∨ token = some "") ∧
    ((main token fetch).exitCode = 2 →
        (main token fetch).fetched = [] ∧ (main token fetch).diagnostic =
          some "ERROR: WAQI_TOKEN environment variable not set.") ∧
    (token ≠ none → token ≠ some "" → (main token fetch).exitCode = 0 ∧
        (main token fetch).diagnostic = none ∧
        (main token fetch).summaries.length = 3) := by
  have hmiss : tokenMissing token = true ↔ token = none ∨ token = some "" := by
    cases token with
    | none => simp [tokenMissing]
    | some t =>
      simp only [tokenMissing, Option.some.injEq]
      rw [String.isEmpty_iff t]
      simp
  by_cases h : tokenMissing token = true
  · refine ⟨?_, ?_, ?_⟩
    · rw [main, if_pos h]
      simpa using hmiss.mp h
    · intro _
      rw [main, if_pos h]
      exact ⟨rfl, rfl⟩
    · intro h1 h2
      rcases hmiss.mp h with h3 | h3
      · exact absurd h3 h1
      · exact absurd h3 h2
  · have h0 : (main token fetch).exitCode = 0 := by
      rw [main, if_neg h]
    refine ⟨?_, ?_, ?_⟩
    · rw [h0]
      constructor
      · intro h2; exact absurd h2 (by decide)
      · intro h2
        exact absurd (hmiss.mpr h2) h
    · intro h2
      rw [h0] at h2
      exact absurd h2 (by decide)
    · intro _ _
      refine ⟨h0, ?_, ?_⟩
      · rw [main, if_neg h]
      · rw [main, if_neg h]
        simp [runCities, cities]

/-- Witness for C8: a non-empty token runs to completion with exit code 0
and three summary rows even though every fetch fails; an absent token
exits 2 with the diagnostic and no fetch attempted. -/
theorem exit_codes_spec_witness :
    ((main (some "tok") fun _ => .error "down").exitCode = 0 ∧
     (main (some "tok") fun _ => .error "down").diagnostic = none ∧
     (main (some "tok") fun _ => .error "down").summaries.length = 3) ∧
    ((main none fun _ => .error "down").fetched = [] ∧
     (main none fun _ => .error "down").diagnostic =
       some "ERROR: WAQI_TOKEN environment variable not set.") :=
  ⟨(exit_codes_spec (some "tok") fun _ => .error "down").2.2 (by decide) (by decide),
   (exit_codes_spec none fun _ => .error "down").2.1 rfl⟩

/-- C10: a token set to the empty string behaves exactly like an absent
one — the whole observable outcome of `main` coincides, the exit code is
2, and no fetch is attempted. -/
theorem empty_token_like_absent (fetch : String → Except String Json) :
    main (some "") fetch = main none fetch ∧
    (main (some "") fetch).exitCode = 2 ∧
    (main (some "") fetch).fetched = [] ∧
    (main (some "") fetch).diagnostic =
      some "ERROR: WAQI_TOKEN environment variable not set." :=
  ⟨rfl, rfl, rfl, rfl⟩

end AQI
